import Mathlib

/-
Verification development for the AI Interview Evaluation Service
(FastAPI application in main.py).

The Python source is shallowly embedded: byte blobs are lists of byte
values (List Nat), Python floats are modelled as exact rationals (ℚ),
the on-disk session directory is an association list keyed by file stem,
and the external collaborators (the pydub decoder and the multimodal
evaluator) are opaque parameters, as the specification treats them.
Temporary-file side effects are tracked explicitly: each call reports
which temp files it created and which still exist when it returns.
-/

namespace InterviewAI

/-! ## Byte-level constants (magic signatures from _detect_upload_format) -/

/-- Bytes 1A 45 DF A3, the EBML/webm signature. -/
def webmMagic : List Nat := [0x1A, 0x45, 0xDF, 0xA3]

/-- ASCII bytes of OggS. -/
def oggMagic : List Nat := [0x4F, 0x67, 0x67, 0x53]

/-- ASCII bytes of fLaC. -/
def flacMagic : List Nat := [0x66, 0x4C, 0x61, 0x43]

/-- ASCII bytes of ID3. -/
def id3Magic : List Nat := [0x49, 0x44, 0x33]

/-- Bytes FF FB, an MPEG audio frame header. -/
def mp3FrameMagic : List Nat := [0xFF, 0xFB]

/-- ASCII bytes of ftyp. -/
def ftypMagic : List Nat := [0x66, 0x74, 0x79, 0x70]

/-- ASCII bytes of RIFF. -/
def riffMagic : List Nat := [0x52, 0x49, 0x46, 0x46]

/-- ASCII bytes of WAVE. -/
def waveMagic : List Nat := [0x57, 0x41, 0x56, 0x45]

/-! ## String helpers mirroring the Python operations used by the source -/

/-- Python substring membership, key in content_type: the needle occurs
contiguously somewhere in the haystack. -/
def containsSub (hay needle : String) : Bool :=
  (List.range (hay.toList.length + 1)).any fun i =>
    (hay.toList.drop i).take needle.toList.length = needle.toList

/-- Python str.strip(): remove leading and trailing whitespace. -/
def pyStrip (s : String) : String :=
  String.mk (((s.toList.dropWhile Char.isWhitespace).reverse.dropWhile
    Char.isWhitespace).reverse)

/-- Python filename.rsplit(".", 1)[-1].lower() when "." occurs in the
filename, else the empty string; lowercasing is modelled for the ASCII
range, which covers every key of the extension table. -/
def extOf (filename : String) : String :=
  if filename.toList.contains '.' then
    String.mk (((filename.toList.reverse.takeWhile (fun c => c ≠ '.')).reverse).map
      Char.toLower)
  else ""

/-! ## Format detection (_detect_upload_format, main.py lines 88-120) -/

/-- The magic-byte elif chain guarded by len(audio_bytes) >= 12; none means
the chain fell through to the content-type table. Note the final rule: the
source tests only RIFF at offset 0 (main.py line 102), it does not also
require WAVE at offset 8. -/
def detectFromMagic (audio_bytes : List Nat) : Option String :=
  if audio_bytes.take 4 = webmMagic then some "webm"
  else if audio_bytes.take 4 = oggMagic then some "ogg"
  else if audio_bytes.take 4 = flacMagic then some "flac"
  else if audio_bytes.take 3 = id3Magic ∨ audio_bytes.take 2 = mp3FrameMagic then
    some "mp3"
  else if (audio_bytes.drop 4).take 4 = ftypMagic then some "mp4"
  else if audio_bytes.take 4 = riffMagic then some "wav"
  else none

/-- The ct_map dictionary, in source (insertion) order. -/
def ct_map : List (String × String) :=
  [("audio/webm", "webm"), ("video/webm", "webm"),
   ("audio/ogg", "ogg"), ("audio/mp4", "mp4"),
   ("audio/mpeg", "mp3"), ("audio/wav", "wav"),
   ("audio/x-wav", "wav"), ("audio/flac", "flac")]

/-- The ext_map dictionary, in source (insertion) order. -/
def ext_map : List (String × String) :=
  [("webm", "webm"), ("ogg", "ogg"), ("mp4", "mp4"),
   ("m4a", "mp4"), ("mp3", "mp3"), ("wav", "wav"), ("flac", "flac")]

/-- The fallthrough of _detect_upload_format once every magic check has
missed: the for-loop over ct_map returning the first key contained in the
content type (lines 111-113), then the extension lookup with default webm
(lines 115-120). -/
def detectFromHeaders (content_type filename : String) : String :=
  match ct_map.find? (fun p => containsSub content_type p.1) with
  | some p => p.2
  | none => (ext_map.lookup (extOf filename)).getD "webm"

/-- _detect_upload_format: magic bytes (only when at least 12 bytes are
present), then first ct_map key occurring in the content type, then the
extension table, else webm. The leading underscore of the source name is
dropped for Lean. -/
def detect_upload_format (content_type filename : String)
    (audio_bytes : List Nat) : String :=
  match (if 12 ≤ audio_bytes.length then detectFromMagic audio_bytes else none) with
  | some fmt => fmt
  | none => detectFromHeaders content_type filename

/-! ## Audio normalizer (save_uploaded_audio_as_wav, main.py lines 47-85) -/

/-- The observable outcome of save_uploaded_audio_as_wav: the extension of
the temporary file it wrote (the basename is a fresh uuid4, modelled as
unique by construction), the bytes written to it, and whether the pydub
decode step was entered at all. -/
structure SavedAudio where
  ext : String
  content : List Nat
  decodeAttempted : Bool
deriving DecidableEq, Repr

/-- save_uploaded_audio_as_wav. The pydub pipeline
(AudioSegment.from_file, set_channels(1), set_frame_rate(16000),
set_sample_width(2), export) is an external collaborator; the parameter
decode is some exported-wav-bytes when it succeeds and none when it raises,
in which case the source writes the raw bytes under the detected format's
extension (lines 80-85). The RIFF/WAVE fast path (lines 58-63) writes the
raw bytes verbatim with no decode. -/
def save_uploaded_audio_as_wav (content_type filename : String)
    (audio_bytes : List Nat) (decode : Option (List Nat)) : SavedAudio :=
  if audio_bytes.take 4 = riffMagic ∧ (audio_bytes.drop 8).take 4 = waveMagic then
    ⟨"wav", audio_bytes, false⟩
  else
    match decode with
    | some wavBytes => ⟨"wav", wavBytes, true⟩
    | none => ⟨detect_upload_format content_type filename audio_bytes, audio_bytes, true⟩

/-! ## Data model (session records as persisted by main.py) -/

/-- One question record from the question bank, with the defaults the
source applies via .get already materialized. The opaque dict-valued
entries of the bank are irrelevant to every claim and are omitted. -/
structure Question where
  q : String
  category : String
  difficulty : String
  weight : ℚ
  keywords : List String
  model_answer : String
deriving DecidableEq, Repr

/-- The four skill keys of avg_skills, in the source's dict insertion
order: technical, communication, problem_solving, confidence. -/
structure SkillScores where
  technical : ℚ
  communication : ℚ
  problem_solving : ℚ
  confidence : ℚ
deriving DecidableEq, Repr

/-- The evaluator's output shape consumed by evaluate (main.py lines
256-283). evaluate_multimodal is an external collaborator; opaque
dict-valued fields (emotion_details, breakdown, voice_analysis, keywords)
are passed through verbatim by the source and omitted here. -/
structure EvalRes where
  transcript : String
  overall_marks : ℚ
  overall_percentage : ℚ
  emotion_detected : String
  sentiment : String
  feedback : String
  skill_scores : SkillScores
deriving DecidableEq, Repr

/-- One recorded Result (the dict built at main.py lines 267-284). -/
structure Result where
  question : String
  question_index : Int
  category : String
  difficulty : String
  weight : ℚ
  transcript : String
  overall_marks : ℚ
  overall_percentage : ℚ
  emotion : String
  sentiment : String
  feedback : String
  skill_scores : SkillScores
deriving DecidableEq, Repr

/-- The final_summary dict built at main.py lines 337-348. -/
structure FinalSummary where
  total_marks : ℚ
  average_score : ℚ
  percentage : ℚ
  total_questions : Nat
  max_possible : Nat
  skill_averages : SkillScores
  strengths : List String
  weaknesses : List String
  dominant_emotion : String
  grade : String
deriving DecidableEq, Repr

/-- A persisted session record (main.py lines 184-191 plus the optional
final_result key added at line 350). -/
structure Session where
  session_id : String
  domain : String
  level : String
  questions : List Question
  scores : List Result
  total_questions : Nat
  final_result : Option FinalSummary
deriving DecidableEq, Repr

/-- The session created by the start endpoint (main.py lines 184-193):
no scores, no final result. The domain/level question-bank selection and
flattening is opaque bank content; the materialized question list is
taken as given. -/
def start_session (session_id domain level : String)
    (questions : List Question) : Session :=
  ⟨session_id, domain, level, questions, [], questions.length, none⟩

/-! ## Python numeric helpers -/

/-- Python round-half-to-even on a rational, to an integer. -/
def roundHalfEven (q : ℚ) : ℤ :=
  if q - ⌊q⌋ < 1/2 then ⌊q⌋
  else if 1/2 < q - ⌊q⌋ then ⌊q⌋ + 1
  else if ⌊q⌋ % 2 = 0 then ⌊q⌋ else ⌊q⌋ + 1

/-- Python round(q, ndigits); floats are modelled as exact rationals, so
this is exact banker's rounding at the given decimal position. -/
def pyRound (q : ℚ) (ndigits : Nat) : ℚ :=
  (roundHalfEven (q * (10 : ℚ) ^ ndigits) : ℚ) / (10 : ℚ) ^ ndigits

/-- Python max(iterable, key=k) over a nonempty scan order: the scan keeps
the current element unless a later one has a strictly greater key, so the
first element attaining the maximum key wins. -/
def pyMaxKey (key : String → Nat) : String → List String → String
  | best, [] => best
  | best, x :: xs =>
    if key best < key x then pyMaxKey key x xs else pyMaxKey key best xs

/-! ## Score aggregation (the finished branch, main.py lines 293-348) -/

/-- The grade band chain of main.py lines 322-335. -/
def grade (percentage : ℚ) : String :=
  if 90 ≤ percentage then "A+"
  else if 80 ≤ percentage then "A"
  else if 70 ≤ percentage then "B+"
  else if 60 ≤ percentage then "B"
  else if 50 ≤ percentage then "C"
  else if 40 ≤ percentage then "D"
  else "F"

/-- max(set(emotions), key=emotions.count) if emotions else "neutral"
(main.py lines 317-320). Python's set(emotions) enumerates the distinct
labels in an order the language does not fix (string hashing is
randomized per process); that enumeration is passed in as setOrder. The
empty-setOrder fallback is unreachable for a valid enumeration of a
nonempty list. -/
def dominant_emotion (emotions setOrder : List String) : String :=
  if emotions.isEmpty then "neutral"
  else
    match setOrder with
    | [] => "neutral"
    | x :: xs => pyMaxKey (fun e => emotions.count e) x xs

/-- setOrder is a possible iteration order of the Python set of the given
labels: no duplicates, and exactly the labels that occur. -/
def ValidSetOrder (emotions setOrder : List String) : Prop :=
  setOrder.Nodup ∧ (∀ x ∈ setOrder, x ∈ emotions) ∧ ∀ x ∈ emotions, x ∈ setOrder

/-- One legal set order, used wherever a concrete enumeration is needed:
distinct labels in first-occurrence order. -/
def dedupFirst (l : List String) : List String :=
  l.foldl (fun acc x => if x ∈ acc then acc else acc ++ [x]) []

/-- The (name, value) pairs of avg_skills in dict insertion order, as
iterated by the strengths/weaknesses comprehensions. -/
def skillPairs (s : SkillScores) : List (String × ℚ) :=
  [("technical", s.technical), ("communication", s.communication),
   ("problem_solving", s.problem_solving), ("confidence", s.confidence)]

/-- Sum of overall_marks over the recorded scores. -/
def sumMarks (scores : List Result) : ℚ :=
  (scores.map Result.overall_marks).sum

/-- Per-skill averages of main.py lines 300-312. -/
def avgSkills (scores : List Result) (total_questions : Nat) : SkillScores :=
  ⟨pyRound ((scores.map (fun s => s.skill_scores.technical)).sum / total_questions) 1,
   pyRound ((scores.map (fun s => s.skill_scores.communication)).sum / total_questions) 1,
   pyRound ((scores.map (fun s => s.skill_scores.problem_solving)).sum / total_questions) 1,
   pyRound ((scores.map (fun s => s.skill_scores.confidence)).sum / total_questions) 1⟩

/-- The final-summary computation of main.py lines 294-348, applied to the
scores list after the terminal append. setOrderFn supplies the set
enumeration used for the dominant emotion. -/
def aggregate (scores : List Result) (total_questions : Nat)
    (setOrderFn : List String → List String) : FinalSummary :=
  let total_marks := sumMarks scores
  let max_possible := total_questions * 10
  let avg := avgSkills scores total_questions
  let emotions := scores.map Result.emotion
  let percentage := pyRound (total_marks / (max_possible : ℚ) * 100) 2
  { total_marks := pyRound total_marks 2
    average_score := pyRound (total_marks / (total_questions : ℚ)) 2
    percentage := percentage
    total_questions := total_questions
    max_possible := max_possible
    skill_averages := avg
    strengths := ((skillPairs avg).filter (fun p => 65 ≤ p.2)).map Prod.fst
    weaknesses := ((skillPairs avg).filter (fun p => p.2 < 50)).map Prod.fst
    dominant_emotion := dominant_emotion emotions (setOrderFn emotions)
    grade := grade percentage }

/-! ## Session store (save_session / load_session, main.py lines 126-139) -/

/-- The saved_sessions directory: an association list from file stem to
record; writing prepends, reading takes the first (most recent) match,
matching overwrite-on-save file semantics. -/
def Store : Type := List (String × Session)

/-- load_session: the path is built from session_id.strip(), so lookup is
by the stripped id (main.py line 135). -/
def load_session (store : Store) (session_id : String) : Option Session :=
  List.lookup (pyStrip session_id) store

/-- save_session: the path is built from the id exactly as given
(main.py line 127); sanitize_for_json is the identity on this model. -/
def save_session (store : Store) (session_id : String) (data : Session) : Store :=
  (session_id, data) :: store

/-! ## The evaluate endpoint (main.py lines 216-381) -/

/-- The error responses evaluate can raise via HTTPException. -/
inductive HErr where
  | notFound
  | invalidIndex
  | invalidAudio
deriving DecidableEq, Repr

/-- The successful response bodies of evaluate: the finished shape
(lines 353-358) and the progress shape (lines 362-372). -/
inductive EvalResponse where
  | finished (current : Result) (final : FinalSummary) (all : List Result)
  | inProgress (current : Result) (currentIdx : Int) (total : Nat) (progressPct : ℚ)
deriving DecidableEq, Repr

/-- How an evaluate call terminates: an HTTP error response, the external
evaluator's exception propagating out, or a success body. -/
inductive EvalOutcome where
  | httpError (e : HErr)
  | evaluatorRaised
  | ok (r : EvalResponse)
deriving DecidableEq, Repr

/-- The full observable effect of one evaluate call on one session value:
the outcome, the session value after the call body ran (unchanged on every
non-success path), the temp files the call created, and the temp files
still existing when control returns to the caller. The finally block at
lines 374-381 removes img_path and audio_path, but it only guards the try
block entered at line 254; exits before that point skip it. -/
structure EvalOutput where
  outcome : EvalOutcome
  session : Session
  createdFiles : List String
  leftoverFiles : List String
  evaluatorInvoked : Bool
deriving Repr

/-- The temporary image file written at lines 234-237; its uuid4 basename
is represented by a fixed fresh token. -/
def IMG_PATH : String := "temp_eval/img.jpg"

/-- The temporary audio file produced by the normalizer, named by a fresh
uuid4 basename and the extension the normalizer chose. -/
def audioFilePath (ext : String) : String := "temp_eval/audio." ++ ext

/-- Fallback for the (guarded, unreachable) out-of-range list access. -/
def dummyQuestion : Question := ⟨"", "technical", "medium", 1, [], ""⟩

/-- The result dict built at main.py lines 267-284 from the question
record and the evaluator output. -/
def mkResult (q : Question) (index : Int) (er : EvalRes) : Result :=
  ⟨q.q, index, q.category, q.difficulty, q.weight, er.transcript,
   er.overall_marks, er.overall_percentage, er.emotion_detected,
   er.sentiment, er.feedback, er.skill_scores⟩

/-- The body of evaluate after the session has been loaded (main.py lines
228-381). In source order: index bounds check (228), image write (234-237),
audio size precondition (242-246) — raised after the image write and
before the try, so the image file survives that exit — audio normalization
(248), then the try block: external evaluator (256), result append (289),
terminal check index >= len(questions) - 1 (291), aggregation and
final_result on terminal (293-351), with the finally block deleting both
temp files on every exit from the try. evalOutcome is .error when
evaluate_multimodal raises, .ok with its returned shape otherwise. -/
def evaluate_core (session : Session) (index : Int) (audio_bytes : List Nat)
    (content_type filename : String) (decode : Option (List Nat))
    (evalOutcome : Except Unit EvalRes)
    (setOrderFn : List String → List String) : EvalOutput :=
  if index < 0 ∨ (session.questions.length : Int) ≤ index then
    ⟨.httpError .invalidIndex, session, [], [], false⟩
  else
    let q := session.questions.getD index.toNat dummyQuestion
    if audio_bytes.length < 100 then
      ⟨.httpError .invalidAudio, session, [IMG_PATH], [IMG_PATH], false⟩
    else
      let saved := save_uploaded_audio_as_wav content_type filename audio_bytes decode
      let apath := audioFilePath saved.ext
      match evalOutcome with
      | .error _ => ⟨.evaluatorRaised, session, [IMG_PATH, apath], [], true⟩
      | .ok er =>
        let result := mkResult q index er
        let scores2 := session.scores ++ [result]
        if (session.questions.length : Int) - 1 ≤ index then
          let summary := aggregate scores2 session.questions.length setOrderFn
          ⟨.ok (.finished result summary scores2),
            { session with scores := scores2, final_result := some summary },
            [IMG_PATH, apath], [], true⟩
        else
          ⟨.ok (.inProgress result (index + 1) session.questions.length
              (pyRound (((index : ℚ) + 1) / (session.questions.length : ℚ) * 100) 1)),
            { session with scores := scores2 },
            [IMG_PATH, apath], [], true⟩

/-- The observable effect of one evaluate call on the store. -/
structure StoreEvalOutput where
  outcome : EvalOutcome
  store : Store
  createdFiles : List String
  leftoverFiles : List String
  evaluatorInvoked : Bool

/-- Persistence after the call body: the updated session is saved with
save_session under the id exactly as supplied (main.py lines 351 and 360)
— only on the success paths, which are the only paths that reach a save. -/
def finishEvaluate (store : Store) (session_id : String)
    (out : EvalOutput) : StoreEvalOutput :=
  match out.outcome with
  | .ok r =>
    ⟨.ok r, save_session store session_id out.session,
      out.createdFiles, out.leftoverFiles, out.evaluatorInvoked⟩
  | .httpError e =>
    ⟨.httpError e, store, out.createdFiles, out.leftoverFiles, out.evaluatorInvoked⟩
  | .evaluatorRaised =>
    ⟨.evaluatorRaised, store, out.createdFiles, out.leftoverFiles, out.evaluatorInvoked⟩

/-- The evaluate endpoint: load_session (line 224; 404 when absent), then
the call body, then persistence of its effect. -/
def evaluate (store : Store) (session_id : String) (index : Int)
    (audio_bytes : List Nat) (content_type filename : String)
    (decode : Option (List Nat)) (evalOutcome : Except Unit EvalRes)
    (setOrderFn : List String → List String) : StoreEvalOutput :=
  match load_session store session_id with
  | none => ⟨.httpError .notFound, store, [], [], false⟩
  | some session =>
    finishEvaluate store session_id (evaluate_core session index audio_bytes
      content_type filename decode evalOutcome setOrderFn)

/-- The get_session endpoint (main.py lines 387-400): load (404 when
absent) and strip model answers from the embedded questions; removal of
the model_answer key is modelled as clearing the field. -/
def stripQuestion (q : Question) : Question := { q with model_answer := "" }

/-- get_session as a partial map: none models the 404 response. -/
def get_session (store : Store) (session_id : String) : Option Session :=
  (load_session store session_id).map
    (fun s => { s with questions := s.questions.map stripQuestion })

/-! ## Specification-side detection models (for comparison with the code) -/

/-- The magic-byte sniff exactly as the specification words it, including
its wav rule: RIFF at offset 0 and WAVE at offset 8 both required. -/
def sniffClaimed (bytes : List Nat) : Option String :=
  if bytes.length < 12 then none
  else if bytes.take 4 = webmMagic then some "webm"
  else if bytes.take 4 = oggMagic then some "ogg"
  else if bytes.take 4 = flacMagic then some "flac"
  else if bytes.take 3 = id3Magic ∨ bytes.take 2 = mp3FrameMagic then some "mp3"
  else if (bytes.drop 4).take 4 = ftypMagic then some "mp4"
  else if bytes.take 4 = riffMagic ∧ (bytes.drop 8).take 4 = waveMagic then some "wav"
  else none

/-- The sniff with the wav rule amended to what the source does: RIFF at
offset 0 alone suffices. -/
def sniffAmended (bytes : List Nat) : Option String :=
  if bytes.length < 12 then none
  else if bytes.take 4 = webmMagic then some "webm"
  else if bytes.take 4 = oggMagic then some "ogg"
  else if bytes.take 4 = flacMagic then some "flac"
  else if bytes.take 3 = id3Magic ∨ bytes.take 2 = mp3FrameMagic then some "mp3"
  else if (bytes.drop 4).take 4 = ftypMagic then some "mp4"
  else if bytes.take 4 = riffMagic then some "wav"
  else none

/-- Stage 2 of the specification's priority order: substring match of the
declared content type against the fixed table, first match winning. -/
def ctStage (content_type : String) : Option String :=
  (ct_map.find? (fun p => containsSub content_type p.1)).map Prod.snd

/-- Stage 3 of the specification's priority order: filename-extension
lookup against the fixed extension table. -/
def extStage (filename : String) : Option String :=
  ext_map.lookup (extOf filename)

/-- Format detection exactly as the claim words it: sniff (wav requiring
RIFF and WAVE), else content type, else extension, else webm. -/
def detectClaimed (content_type filename : String) (bytes : List Nat) : String :=
  (((sniffClaimed bytes).orElse fun _ => ctStage content_type).orElse
    fun _ => extStage filename).getD "webm"

/-- Format detection as the claim, amended only in the wav sniff rule. -/
def detectAmended (content_type filename : String) (bytes : List Nat) : String :=
  (((sniffAmended bytes).orElse fun _ => ctStage content_type).orElse
    fun _ => extStage filename).getD "webm"

/-- The dominant emotion exactly as the claim words it: the mode of the
labels with ties broken in favor of the label encountered first. -/
def dominantEmotionClaimed (emotions : List String) : String :=
  match dedupFirst emotions with
  | [] => "neutral"
  | x :: xs => pyMaxKey (fun e => emotions.count e) x xs

/-! ## Call traces (sessions reachable through start and evaluate) -/

/-- The caller-controlled inputs of one evaluate call, together with the
behavior of the two external collaborators during that call. -/
structure CallSpec where
  index : Int
  audio_bytes : List Nat
  content_type : String
  filename : String
  decode : Option (List Nat)
  evalOutcome : Except Unit EvalRes
  setOrderFn : List String → List String

/-- The session value after one evaluate call against it. -/
def applyCall (s : Session) (c : CallSpec) : Session :=
  (evaluate_core s c.index c.audio_bytes c.content_type c.filename c.decode
    c.evalOutcome c.setOrderFn).session

/-- The session value after a sequence of evaluate calls. -/
def runCalls (s : Session) (calls : List CallSpec) : Session :=
  calls.foldl applyCall s

/-- Whether the external evaluator returned normally. -/
def evalOk : Except Unit EvalRes → Bool
  | .ok _ => true
  | .error _ => false

/-- A call passes every check and records a Result: in-range index, audio
of at least 100 bytes, evaluator returned normally. -/
def CallSucceeds (nQ : Nat) (c : CallSpec) : Prop :=
  ¬(c.index < 0 ∨ (nQ : Int) ≤ c.index) ∧
    ¬(c.audio_bytes.length < 100) ∧ evalOk c.evalOutcome = true

/-- The call's index is the last question's index (the source's terminal
test index >= len(questions) - 1). -/
def CallTerminal (nQ : Nat) (c : CallSpec) : Prop :=
  (nQ : Int) - 1 ≤ c.index

instance (nQ : Nat) (c : CallSpec) : Decidable (CallSucceeds nQ c) := by
  unfold CallSucceeds; infer_instance

instance (nQ : Nat) (c : CallSpec) : Decidable (CallTerminal nQ c) := by
  unfold CallTerminal; infer_instance

/-! ## Concrete fixtures used by witnesses and counterexamples -/

/-- A first bank question. -/
def qEx0 : Question := ⟨"Q0", "technical", "medium", 1, [], "model answer 0"⟩

/-- A second bank question. -/
def qEx1 : Question := ⟨"Q1", "technical", "medium", 1, [], "model answer 1"⟩

/-- A concrete evaluator return value. -/
def erEx : EvalRes := ⟨"transcript", 8, 80, "happy", "positive", "good", ⟨70, 70, 70, 70⟩⟩

/-- A freshly started two-question session. -/
def sessEx : Session := start_session "sess1" "backend" "all" [qEx0, qEx1]

/-- A store holding only that session. -/
def storeEx : Store := [("sess1", sessEx)]

/-- An audio payload at the minimum accepted size. -/
def audioOk : List Nat := List.replicate 100 7

/-- A byte blob with the full RIFF/WAVE header. -/
def wavBytesEx : List Nat := riffMagic ++ [0, 0, 0, 0] ++ waveMagic

/-- Twelve bytes starting with RIFF but without WAVE at offset 8. -/
def riffJunkEx : List Nat := riffMagic ++ [0x78, 0x78, 0x78, 0x78, 0x78, 0x78, 0x78, 0x78]

/-- One successful evaluate call submitting the last question's index of a
two-question session. -/
def ceCall : CallSpec := ⟨1, audioOk, "", "", none, .ok erEx, dedupFirst⟩

/-! ## Helper lemmas: equation lemmas for the evaluate call paths -/

/-- Unknown session id: the 404 path of evaluate. -/
theorem evaluate_none {store : Store} {session_id : String}
    (index : Int) (audio_bytes : List Nat) (content_type filename : String)
    (decode : Option (List Nat)) (evalOutcome : Except Unit EvalRes)
    (setOrderFn : List String → List String)
    (h : load_session store session_id = none) :
    evaluate store session_id index audio_bytes content_type filename decode
        evalOutcome setOrderFn = ⟨.httpError .notFound, store, [], [], false⟩ := by
  unfold evaluate
  rw [h]

/-- Known session id: evaluate runs the call body and persists its effect. -/
theorem evaluate_some {store : Store} {session_id : String} {s : Session}
    (index : Int) (audio_bytes : List Nat) (content_type filename : String)
    (decode : Option (List Nat)) (evalOutcome : Except Unit EvalRes)
    (setOrderFn : List String → List String)
    (h : load_session store session_id = some s) :
    evaluate store session_id index audio_bytes content_type filename decode
        evalOutcome setOrderFn =
      finishEvaluate store session_id (evaluate_core s index audio_bytes
        content_type filename decode evalOutcome setOrderFn) := by
  unfold evaluate
  rw [h]

/-- Out-of-range index: the call body stops before any file is written. -/
theorem core_invalidIndex {s : Session} {index : Int}
    (audio_bytes : List Nat) (content_type filename : String)
    (decode : Option (List Nat)) (evalOutcome : Except Unit EvalRes)
    (setOrderFn : List String → List String)
    (h : index < 0 ∨ (s.questions.length : Int) ≤ index) :
    evaluate_core s index audio_bytes content_type filename decode evalOutcome
        setOrderFn = ⟨.httpError .invalidIndex, s, [], [], false⟩ := by
  unfold evaluate_core
  rw [if_pos h]

/-- Audio below the 100-byte threshold: the image file has already been
written and is not removed on this exit. -/
theorem core_invalidAudio {s : Session} {index : Int} {audio_bytes : List Nat}
    (content_type filename : String) (decode : Option (List Nat))
    (evalOutcome : Except Unit EvalRes) (setOrderFn : List String → List String)
    (h : ¬(index < 0 ∨ (s.questions.length : Int) ≤ index))
    (hlen : audio_bytes.length < 100) :
    evaluate_core s index audio_bytes content_type filename decode evalOutcome
        setOrderFn = ⟨.httpError .invalidAudio, s, [IMG_PATH], [IMG_PATH], false⟩ := by
  unfold evaluate_core
  rw [if_neg h, if_pos hlen]

/-- External evaluator raised: the finally block removes both files, the
session value is untouched, and the exception propagates. -/
theorem core_evalRaised {s : Session} {index : Int} {audio_bytes : List Nat}
    (content_type filename : String) (decode : Option (List Nat))
    (setOrderFn : List String → List String)
    (h : ¬(index < 0 ∨ (s.questions.length : Int) ≤ index))
    (hlen : ¬(audio_bytes.length < 100)) :
    evaluate_core s index audio_bytes content_type filename decode (.error ())
        setOrderFn =
      ⟨.evaluatorRaised, s,
        [IMG_PATH, audioFilePath (save_uploaded_audio_as_wav content_type filename
          audio_bytes decode).ext], [], true⟩ := by
  unfold evaluate_core
  rw [if_neg h, if_neg hlen]

/-- Successful evaluation at the last question's index: the Result is
appended, the aggregate is computed and stored as final_result. -/
theorem core_ok_terminal {s : Session} {index : Int} {audio_bytes : List Nat}
    (content_type filename : String) (decode : Option (List Nat)) (er : EvalRes)
    (setOrderFn : List String → List String)
    (h : ¬(index < 0 ∨ (s.questions.length : Int) ≤ index))
    (hlen : ¬(audio_bytes.length < 100))
    (hterm : (s.questions.length : Int) - 1 ≤ index) :
    evaluate_core s index audio_bytes content_type filename decode (.ok er)
        setOrderFn =
      ⟨.ok (.finished (mkResult (s.questions.getD index.toNat dummyQuestion) index er)
          (aggregate (s.scores ++ [mkResult (s.questions.getD index.toNat dummyQuestion) index er])
            s.questions.length setOrderFn)
          (s.scores ++ [mkResult (s.questions.getD index.toNat dummyQuestion) index er])),
        { s with
          scores := s.scores ++ [mkResult (s.questions.getD index.toNat dummyQuestion) index er],
          final_result := some (aggregate
            (s.scores ++ [mkResult (s.questions.getD index.toNat dummyQuestion) index er])
            s.questions.length setOrderFn) },
        [IMG_PATH, audioFilePath (save_uploaded_audio_as_wav content_type filename
          audio_bytes decode).ext], [], true⟩ := by
  unfold evaluate_core
  rw [if_neg h, if_neg hlen]
  dsimp only
  rw [if_pos hterm]

/-- Successful evaluation at a non-terminal index: the Result is appended
and final_result is left as it was. -/
theorem core_ok_progress {s : Session} {index : Int} {audio_bytes : List Nat}
    (content_type filename : String) (decode : Option (List Nat)) (er : EvalRes)
    (setOrderFn : List String → List String)
    (h : ¬(index < 0 ∨ (s.questions.length : Int) ≤ index))
    (hlen : ¬(audio_bytes.length < 100))
    (hterm : ¬((s.questions.length : Int) - 1 ≤ index)) :
    evaluate_core s index audio_bytes content_type filename decode (.ok er)
        setOrderFn =
      ⟨.ok (.inProgress (mkResult (s.questions.getD index.toNat dummyQuestion) index er)
          (index + 1) s.questions.length
          (pyRound (((index : ℚ) + 1) / (s.questions.length : ℚ) * 100) 1)),
        { s with
          scores := s.scores ++ [mkResult (s.questions.getD index.toNat dummyQuestion) index er] },
        [IMG_PATH, audioFilePath (save_uploaded_audio_as_wav content_type filename
          audio_bytes decode).ext], [], true⟩ := by
  unfold evaluate_core
  rw [if_neg h, if_neg hlen]
  dsimp only
  rw [if_neg hterm]

/-- The call body never produces the not-found error: session lookup
happens before it (main.py line 224). -/
theorem core_not_notFound (s : Session) (index : Int) (audio_bytes : List Nat)
    (content_type filename : String) (decode : Option (List Nat))
    (evalOutcome : Except Unit EvalRes) (setOrderFn : List String → List String) :
    (evaluate_core s index audio_bytes content_type filename decode evalOutcome
      setOrderFn).outcome ≠ .httpError .notFound := by
  unfold evaluate_core
  cases evalOutcome <;> (dsimp only; split_ifs <;> simp)

/-! ## Helper lemmas: one evaluate call as a session transition -/

/-- Effect of one call on the session value: questions are never touched,
exactly the successful calls append one Result, and final_result becomes
set exactly when a successful call used the last question's index. -/
theorem applyCall_spec (s : Session) (c : CallSpec) :
    (applyCall s c).questions = s.questions ∧
    (applyCall s c).scores.length = s.scores.length +
      (if CallSucceeds s.questions.length c then 1 else 0) ∧
    ((applyCall s c).final_result.isSome ↔
      s.final_result.isSome ∨
        (CallSucceeds s.questions.length c ∧ CallTerminal s.questions.length c)) := by
  obtain ⟨idx, ab, ct, fn, dec, eo, sof⟩ := c
  by_cases h1 : idx < 0 ∨ (s.questions.length : Int) ≤ idx
  · have hcs : ¬ CallSucceeds s.questions.length ⟨idx, ab, ct, fn, dec, eo, sof⟩ :=
      fun hc => hc.1 h1
    unfold applyCall
    rw [core_invalidIndex ab ct fn dec eo sof h1]
    simp [hcs]
  · by_cases h2 : ab.length < 100
    · have hcs : ¬ CallSucceeds s.questions.length ⟨idx, ab, ct, fn, dec, eo, sof⟩ :=
        fun hc => hc.2.1 h2
      unfold applyCall
      rw [core_invalidAudio ct fn dec eo sof h1 h2]
      simp [hcs]
    · cases eo with
      | error e =>
        have hcs : ¬ CallSucceeds s.questions.length ⟨idx, ab, ct, fn, dec, .error e, sof⟩ := by
          intro hc
          simpa [evalOk] using hc.2.2
        cases e
        unfold applyCall
        rw [core_evalRaised ct fn dec sof h1 h2]
        simp [hcs]
      | ok er =>
        have hcs : CallSucceeds s.questions.length ⟨idx, ab, ct, fn, dec, .ok er, sof⟩ :=
          ⟨h1, h2, rfl⟩
        by_cases h3 : (s.questions.length : Int) - 1 ≤ idx
        · unfold applyCall
          rw [core_ok_terminal ct fn dec er sof h1 h2 h3]
          refine ⟨rfl, ?_, ?_⟩
          · simp [hcs]
          · simp [hcs, CallTerminal, h3]
        · unfold applyCall
          rw [core_ok_progress ct fn dec er sof h1 h2 h3]
          refine ⟨rfl, ?_, ?_⟩
          · simp [hcs]
          · simp [hcs, CallTerminal, h3]

/-- Effect of a whole call trace, by induction over the calls. -/
theorem runCalls_spec (calls : List CallSpec) (s : Session) :
    (runCalls s calls).questions = s.questions ∧
    (runCalls s calls).scores.length = s.scores.length +
      calls.countP (fun c => decide (CallSucceeds s.questions.length c)) ∧
    ((runCalls s calls).final_result.isSome ↔
      s.final_result.isSome ∨
        ∃ c ∈ calls, CallSucceeds s.questions.length c ∧
          CallTerminal s.questions.length c) := by
  induction calls generalizing s with
  | nil => simp [runCalls]
  | cons c cs ih =>
    obtain ⟨hq, hl, hf⟩ := applyCall_spec s c
    obtain ⟨ihq, ihl, ihf⟩ := ih (applyCall s c)
    rw [hq] at ihq ihl ihf
    have hrun : runCalls s (c :: cs) = runCalls (applyCall s c) cs := rfl
    refine ⟨hrun ▸ ihq, ?_, ?_⟩
    · rw [hrun, ihl, hl]
      rw [List.countP_cons]
      by_cases hc : CallSucceeds s.questions.length c
      · simp [hc]
        omega
      · simp [hc]
    · rw [hrun, ihf, hf]
      simp only [List.exists_mem_cons_iff]
      tauto

/-! ## Helper lemmas: pyMaxKey -/

/-- pyMaxKey picks an element of its scan. -/
theorem pyMaxKey_mem (key : String → Nat) (x : String) (xs : List String) :
    pyMaxKey key x xs ∈ x :: xs := by
  induction xs generalizing x with
  | nil => simp [pyMaxKey]
  | cons z zs ih =>
    simp only [pyMaxKey]
    by_cases h : key x < key z
    · rw [if_pos h]
      exact List.mem_cons_of_mem x (ih z)
    · rw [if_neg h]
      rcases List.mem_cons.mp (ih x) with h1 | h1
      · rw [h1]
        exact List.mem_cons_self x (z :: zs)
      · exact List.mem_cons_of_mem x (List.mem_cons_of_mem z h1)

/-- pyMaxKey attains the maximal key over its scan. -/
theorem pyMaxKey_le (key : String → Nat) (x : String) (xs : List String) :
    ∀ y ∈ x :: xs, key y ≤ key (pyMaxKey key x xs) := by
  induction xs generalizing x with
  | nil =>
    intro y hy
    simp only [List.mem_cons, List.not_mem_nil, or_false] at hy
    subst hy
    simp [pyMaxKey]
  | cons z zs ih =>
    intro y hy
    simp only [pyMaxKey]
    by_cases h : key x < key z
    · rw [if_pos h]
      rcases List.mem_cons.mp hy with rfl | hy2
      · exact le_trans (le_of_lt h) (ih z z (List.mem_cons_self z zs))
      · exact ih z y hy2
    · rw [if_neg h]
      rcases List.mem_cons.mp hy with h0 | hy2
      · subst h0
        exact ih _ _ (List.mem_cons_self _ _)
      · rcases List.mem_cons.mp hy2 with h0 | hy3
        · subst h0
          exact le_trans (Nat.le_of_not_lt h) (ih _ _ (List.mem_cons_self _ _))
        · exact ih x y (List.mem_cons_of_mem x hy3)

/-! ## Claim C1 -/

/-- Claim C1, counterexample to the stated invariant: starting a
two-question session and submitting one successful evaluate call at index
1 (the last question's index) leaves exactly one recorded Result — fewer
than the two questions — yet final_result is already set, refuting the
claimed equivalence between the summary being present and the Result count
equalling the question count. -/
theorem final_summary_invariant_ce :
    (runCalls (start_session "sess1" "backend" "all" [qEx0, qEx1]) [ceCall]).scores.length = 1 ∧
    (runCalls (start_session "sess1" "backend" "all" [qEx0, qEx1]) [ceCall]).questions.length = 2 ∧
    (runCalls (start_session "sess1" "backend" "all" [qEx0, qEx1]) [ceCall]).final_result.isSome = true :=
  ⟨rfl, rfl, rfl⟩

/-- Claim C1 as amended: for every session reachable through start and any
sequence of evaluate calls, the question list is exactly the one selected
at start, the number of recorded Results equals the number of successful
evaluate calls (so it can exceed the number of questions under repeated
submissions), and the final summary is present if and only if some
successful call submitted the last question's index. -/
theorem results_growth_and_final_summary (session_id domain level : String)
    (qs : List Question) (calls : List CallSpec) :
    (runCalls (start_session session_id domain level qs) calls).questions = qs ∧
    (runCalls (start_session session_id domain level qs) calls).scores.length =
      calls.countP (fun c => decide (CallSucceeds qs.length c)) ∧
    ((runCalls (start_session session_id domain level qs) calls).final_result.isSome ↔
      ∃ c ∈ calls, CallSucceeds qs.length c ∧ CallTerminal qs.length c) := by
  have h := runCalls_spec calls (start_session session_id domain level qs)
  simpa [start_session] using h

/-! ## Claim C2 -/

/-- Claim C2, the failing path: with a valid session and index, an audio
payload of 3 bytes is rejected with the invalid-audio error after the
temporary image file has been written; the check sits before the
try/finally block (main.py lines 242-246 versus 254 and 374), so the image
file is still on disk when the call returns. -/
theorem small_audio_leaks_image :
    (evaluate storeEx "sess1" 0 [1, 2, 3] "" "" none (.ok erEx) dedupFirst).outcome
      = .httpError .invalidAudio ∧
    (evaluate storeEx "sess1" 0 [1, 2, 3] "" "" none (.ok erEx) dedupFirst).createdFiles
      = [IMG_PATH] ∧
    (evaluate storeEx "sess1" 0 [1, 2, 3] "" "" none (.ok erEx) dedupFirst).leftoverFiles
      = [IMG_PATH] :=
  ⟨rfl, rfl, rfl⟩

/-! ## Claim C3 -/

/-- Claim C3: an unknown session id fails with the not-found error and an
out-of-range index fails with the invalid-index error; in both cases the
store is unchanged (no Result is appended anywhere), no temporary file has
been created, and the external evaluator has not been invoked. -/
theorem evaluate_precondition_errors (store : Store) (session_id : String)
    (index : Int) (audio_bytes : List Nat) (content_type filename : String)
    (decode : Option (List Nat)) (evalOutcome : Except Unit EvalRes)
    (setOrderFn : List String → List String) :
    (load_session store session_id = none →
      evaluate store session_id index audio_bytes content_type filename decode
          evalOutcome setOrderFn =
        ⟨.httpError .notFound, store, [], [], false⟩) ∧
    (∀ s, load_session store session_id = some s →
      (index < 0 ∨ (s.questions.length : Int) ≤ index) →
      evaluate store session_id index audio_bytes content_type filename decode
          evalOutcome setOrderFn =
        ⟨.httpError .invalidIndex, store, [], [], false⟩) := by
  constructor
  · intro h
    exact evaluate_none index audio_bytes content_type filename decode
      evalOutcome setOrderFn h
  · intro s hs hidx
    rw [evaluate_some index audio_bytes content_type filename decode
      evalOutcome setOrderFn hs,
      core_invalidIndex audio_bytes content_type filename decode
        evalOutcome setOrderFn hidx]
    rfl

/-- Witness for claim C3 at a concrete store: a missing id gives the
not-found error and index 5 in a two-question session gives the
invalid-index error, leaving the store untouched. -/
theorem evaluate_precondition_errors_witness :
    evaluate storeEx "missing" 0 audioOk "" "" none (.ok erEx) dedupFirst =
      ⟨.httpError .notFound, storeEx, [], [], false⟩ ∧
    evaluate storeEx "sess1" 5 audioOk "" "" none (.ok erEx) dedupFirst =
      ⟨.httpError .invalidIndex, storeEx, [], [], false⟩ :=
  ⟨(evaluate_precondition_errors storeEx "missing" 0 audioOk "" "" none (.ok erEx)
      dedupFirst).1 rfl,
   (evaluate_precondition_errors storeEx "sess1" 5 audioOk "" "" none (.ok erEx)
      dedupFirst).2 sessEx rfl (by decide)⟩

/-! ## Claim C4 -/

/-- Claim C4: the normalizer is total (never raises — it is a function
into written files), and with a failing decode it always writes the raw
bytes; outside the wav fast path the file carries the detected format's
extension, so the caller always receives a path to an existing file. -/
theorem normalizer_degrades (content_type filename : String) (bytes : List Nat) :
    (save_uploaded_audio_as_wav content_type filename bytes none).content = bytes ∧
    (¬(bytes.take 4 = riffMagic ∧ (bytes.drop 8).take 4 = waveMagic) →
      save_uploaded_audio_as_wav content_type filename bytes none =
        ⟨detect_upload_format content_type filename bytes, bytes, true⟩) := by
  constructor
  · unfold save_uploaded_audio_as_wav
    split_ifs <;> rfl
  · intro h
    unfold save_uploaded_audio_as_wav
    rw [if_neg h]

/-- Witness for claim C4 on a concrete undecodable 3-byte blob: the raw
bytes are persisted under the detected (default webm) extension. -/
theorem normalizer_degrades_witness :
    (save_uploaded_audio_as_wav "" "" [1, 2, 3] none).content = [1, 2, 3] ∧
    save_uploaded_audio_as_wav "" "" [1, 2, 3] none =
      ⟨detect_upload_format "" "" [1, 2, 3], [1, 2, 3], true⟩ :=
  ⟨(normalizer_degrades "" "" [1, 2, 3]).1,
   (normalizer_degrades "" "" [1, 2, 3]).2 (by decide)⟩

/-! ## Claim C5 -/

/-- Claim C5, counterexample: on twelve bytes that begin with RIFF but do
not carry WAVE at offset 8, the source detector answers wav, while the
detection rule as claimed (wav requiring both RIFF and WAVE) would fall
through to the default webm. -/
theorem wav_sniff_rule_ce :
    detect_upload_format "" "" riffJunkEx = "wav" ∧
    detectClaimed "" "" riffJunkEx = "webm" ∧ "wav" ≠ "webm" :=
  ⟨by decide, by decide, by decide⟩

/-- Claim C5 as amended: detection follows exactly the claimed priority
pipeline — magic-byte sniff on the first 12 bytes, then content-type
substring table, then extension table, then default webm, first match
winning — with the wav sniff rule weakened to requiring only RIFF at
offset 0. -/
theorem detect_priority_order (content_type filename : String) (bytes : List Nat) :
    detect_upload_format content_type filename bytes =
      detectAmended content_type filename bytes := by
  unfold detect_upload_format detectAmended sniffAmended detectFromMagic
    detectFromHeaders ctStage extStage
  by_cases hl : 12 ≤ bytes.length
  · rw [if_pos hl, if_neg (by omega : ¬ bytes.length < 12)]
    split_ifs <;> (try rfl) <;>
      (cases hf : ct_map.find? (fun p => containsSub content_type p.1) with
        | some p => rfl
        | none =>
          cases he : ext_map.lookup (extOf filename)
          all_goals rfl)
  · rw [if_neg hl, if_pos (by omega : bytes.length < 12)]
    cases hf : ct_map.find? (fun p => containsSub content_type p.1) with
    | some p => rfl
    | none =>
      cases he : ext_map.lookup (extOf filename)
      all_goals rfl

/-! ## Claim C6 -/

/-- Claim C6: when the external evaluator raises, the exception propagates
to the caller, the store is exactly the one before the call (so no Result
is appended and the persisted record is unchanged), and no temporary file
is left behind even though both were created. -/
theorem evaluator_failure_atomic (store : Store) (session_id : String)
    (index : Int) (audio_bytes : List Nat) (content_type filename : String)
    (decode : Option (List Nat)) (setOrderFn : List String → List String)
    (s : Session) (hload : load_session store session_id = some s)
    (hidx : ¬(index < 0 ∨ (s.questions.length : Int) ≤ index))
    (hlen : ¬(audio_bytes.length < 100)) :
    evaluate store session_id index audio_bytes content_type filename decode
        (.error ()) setOrderFn =
      ⟨.evaluatorRaised, store,
        [IMG_PATH, audioFilePath (save_uploaded_audio_as_wav content_type filename
          audio_bytes decode).ext], [], true⟩ := by
  rw [evaluate_some index audio_bytes content_type filename decode (.error ())
      setOrderFn hload,
    core_evalRaised content_type filename decode setOrderFn hidx hlen]
  rfl

/-- Witness for claim C6 at a concrete store: the evaluator exception
leaves the store as it was and no leftover temp file. -/
theorem evaluator_failure_atomic_witness :
    evaluate storeEx "sess1" 0 audioOk "" "" none (.error ()) dedupFirst =
      ⟨.evaluatorRaised, storeEx,
        [IMG_PATH, audioFilePath (save_uploaded_audio_as_wav "" "" audioOk none).ext],
        [], true⟩ :=
  evaluator_failure_atomic storeEx "sess1" 0 audioOk "" "" none dedupFirst sessEx rfl
    (by decide) (by decide)

/-! ## Claim C7 -/

/-- Claim C7: the letter grade is determined by the fixed bands evaluated
top-down with the first match winning — at least 90 gives the top grade,
each following band is closed-open on its lower bound, and below 40 the
grade is the failing one. -/
theorem grade_bands (p : ℚ) :
    (90 ≤ p → grade p = "A+") ∧
    (80 ≤ p → p < 90 → grade p = "A") ∧
    (70 ≤ p → p < 80 → grade p = "B+") ∧
    (60 ≤ p → p < 70 → grade p = "B") ∧
    (50 ≤ p → p < 60 → grade p = "C") ∧
    (40 ≤ p → p < 50 → grade p = "D") ∧
    (p < 40 → grade p = "F") := by
  refine ⟨?_, ?_, ?_, ?_, ?_, ?_, ?_⟩ <;>
    (intros; unfold grade; split_ifs <;> first | rfl | linarith)

/-- Witness for claim C7 at the claimed boundary cases: 90 is the top
band, 89.99 falls one band below, 50 is the C band, 49.99 the D band. -/
theorem grade_bands_witness :
    grade 90 = "A+" ∧ grade (8999 / 100) = "A" ∧
    grade 50 = "C" ∧ grade (4999 / 100) = "D" :=
  ⟨(grade_bands 90).1 (by norm_num),
   (grade_bands (8999 / 100)).2.1 (by norm_num) (by norm_num),
   (grade_bands 50).2.2.2.2.1 (by norm_num) (by norm_num),
   (grade_bands (4999 / 100)).2.2.2.2.2.1 (by norm_num) (by norm_num)⟩

/-! ## Claim C8 -/

/-- Claim C8, counterexample: with labels happy then sad (a tie at one
occurrence each), the enumeration sad-then-happy is a legal iteration
order of the Python set of those labels, and under it the source computes
sad as the dominant emotion — not the first-encountered label happy that
the claim's first-encountered tie-break mandates. -/
theorem dominant_emotion_tiebreak_ce :
    ValidSetOrder ["happy", "sad"] ["sad", "happy"] ∧
    dominant_emotion ["happy", "sad"] ["sad", "happy"] = "sad" ∧
    dominantEmotionClaimed ["happy", "sad"] = "happy" ∧ "sad" ≠ "happy" :=
  ⟨⟨by decide, by decide, by decide⟩, by decide, by decide, by decide⟩

/-- Claim C8 as amended: for a nonempty list of recorded labels the
dominant emotion is one of the recorded labels and attains the maximal
occurrence count — a mode — with ties broken by the (unspecified)
iteration order of the deduplicated label set rather than by first
encounter; the empty list gives the neutral default. -/
theorem dominant_emotion_mode (emotions setOrder : List String)
    (h : ValidSetOrder emotions setOrder) :
    (emotions = [] → dominant_emotion emotions setOrder = "neutral") ∧
    (emotions ≠ [] →
      dominant_emotion emotions setOrder ∈ emotions ∧
      ∀ e ∈ emotions,
        emotions.count e ≤ emotions.count (dominant_emotion emotions setOrder)) := by
  obtain ⟨hnd, hsub, hsup⟩ := h
  constructor
  · intro he
    subst he
    rfl
  · intro hne
    cases hso : setOrder with
    | nil =>
      exfalso
      cases emotions with
      | nil => exact hne rfl
      | cons a as =>
        have := hsup a (List.mem_cons_self a as)
        rw [hso] at this
        simp at this
    | cons x xs =>
      have hde : dominant_emotion emotions (x :: xs) =
          pyMaxKey (fun e => emotions.count e) x xs := by
        unfold dominant_emotion
        rw [if_neg (by simp [List.isEmpty_iff, hne])]
      rw [hso] at hsub
      constructor
      · rw [hde]
        exact hsub _ (pyMaxKey_mem _ x xs)
      · intro e he
        rw [hde]
        have hmem : e ∈ x :: xs := by
          have := hsup e he
          rwa [hso] at this
        exact pyMaxKey_le (fun e => emotions.count e) x xs e hmem

/-- Witness for the amended claim C8 on a concrete one-label list. -/
theorem dominant_emotion_mode_witness :
    dominant_emotion ["happy"] ["happy"] ∈ (["happy"] : List String) ∧
    List.count "happy" ["happy"] ≤
      List.count (dominant_emotion ["happy"] ["happy"]) ["happy"] :=
  ⟨((dominant_emotion_mode ["happy"] ["happy"] ⟨by decide, by decide, by decide⟩).2
      (by decide)).1,
   ((dominant_emotion_mode ["happy"] ["happy"] ⟨by decide, by decide, by decide⟩).2
      (by decide)).2 "happy" (by decide)⟩

/-! ## Claim C9 -/

/-- Claim C9: a blob carrying RIFF at offset 0 and WAVE at offset 8 is
written verbatim — bit-identical content, wav extension — and the decode
step is never entered. -/
theorem wav_passthrough (content_type filename : String) (bytes : List Nat)
    (decode : Option (List Nat))
    (h1 : bytes.take 4 = riffMagic) (h2 : (bytes.drop 8).take 4 = waveMagic) :
    save_uploaded_audio_as_wav content_type filename bytes decode =
      ⟨"wav", bytes, false⟩ := by
  unfold save_uploaded_audio_as_wav
  rw [if_pos ⟨h1, h2⟩]

/-- Witness for claim C9 on a concrete 12-byte RIFF/WAVE header blob. -/
theorem wav_passthrough_witness :
    save_uploaded_audio_as_wav "" "" wavBytesEx none = ⟨"wav", wavBytesEx, false⟩ :=
  wav_passthrough "" "" wavBytesEx none (by decide) (by decide)

/-! ## Claim C10 -/

/-- Claim C10, counterexample: with the padded id of an existing session,
evaluate does succeed (no not-found failure), but after the successful
call the record loaded under the original id — and even under the padded
id, since loading always strips — still has zero Results: the appended
Result went to a fresh record under the padded key, so the call did not
operate on that session's persisted state. -/
theorem padded_id_update_lost_ce :
    (evaluate storeEx " sess1" 0 audioOk "" "" none (.ok erEx) dedupFirst).outcome
      ≠ .httpError .notFound ∧
    load_session (evaluate storeEx " sess1" 0 audioOk "" "" none (.ok erEx)
      dedupFirst).store "sess1" = some sessEx ∧
    load_session (evaluate storeEx " sess1" 0 audioOk "" "" none (.ok erEx)
      dedupFirst).store " sess1" = some sessEx ∧
    sessEx.scores.length = 0 :=
  ⟨(fun h => nomatch h), rfl, rfl, rfl⟩

/-- Claim C10 as amended: session lookup strips leading and trailing
whitespace, so get_session with a padded id returns that session's
(model-answer-stripped) data and evaluate with a padded id never fails
with the not-found error; but evaluate persists its update under the
unstripped id, so on any success the record found under the stripped id
is still the original session. -/
theorem lookup_strips_save_does_not (store : Store) (pad : String) (s : Session)
    (index : Int) (audio_bytes : List Nat) (content_type filename : String)
    (decode : Option (List Nat)) (evalOutcome : Except Unit EvalRes)
    (setOrderFn : List String → List String)
    (hload : List.lookup (pyStrip pad) store = some s) :
    get_session store pad = some { s with questions := s.questions.map stripQuestion } ∧
    (evaluate store pad index audio_bytes content_type filename decode evalOutcome
      setOrderFn).outcome ≠ .httpError .notFound ∧
    (pyStrip pad ≠ pad →
      List.lookup (pyStrip pad) (evaluate store pad index audio_bytes content_type
        filename decode evalOutcome setOrderFn).store = some s) := by
  have hload2 : load_session store pad = some s := hload
  refine ⟨?_, ?_, ?_⟩
  · unfold get_session
    rw [hload2]
    rfl
  · rw [evaluate_some index audio_bytes content_type filename decode evalOutcome
      setOrderFn hload2]
    unfold finishEvaluate
    cases ho : (evaluate_core s index audio_bytes content_type filename decode
        evalOutcome setOrderFn).outcome with
    | httpError e =>
      have hnn := core_not_notFound s index audio_bytes content_type filename
        decode evalOutcome setOrderFn
      rw [ho] at hnn
      simpa using hnn
    | evaluatorRaised => simp
    | ok r => simp
  · intro hne
    rw [evaluate_some index audio_bytes content_type filename decode evalOutcome
      setOrderFn hload2]
    unfold finishEvaluate
    cases ho : (evaluate_core s index audio_bytes content_type filename decode
        evalOutcome setOrderFn).outcome with
    | httpError e => exact hload
    | evaluatorRaised => exact hload
    | ok r =>
      unfold save_session
      dsimp only
      have hbeq : (pyStrip pad == pad) = false := beq_eq_false_iff_ne.mpr hne
      simp only [List.lookup, hbeq]
      exact hload

/-- Witness for the amended claim C10 at a concrete padded id. -/
theorem lookup_strips_save_does_not_witness :
    get_session storeEx " sess1" =
      some { sessEx with questions := sessEx.questions.map stripQuestion } ∧
    (evaluate storeEx " sess1" 0 audioOk "" "" none (.ok erEx) dedupFirst).outcome
      ≠ .httpError .notFound ∧
    List.lookup (pyStrip " sess1") (evaluate storeEx " sess1" 0 audioOk "" "" none
      (.ok erEx) dedupFirst).store = some sessEx :=
  ⟨(lookup_strips_save_does_not storeEx " sess1" sessEx 0 audioOk "" "" none
      (.ok erEx) dedupFirst rfl).1,
   (lookup_strips_save_does_not storeEx " sess1" sessEx 0 audioOk "" "" none
      (.ok erEx) dedupFirst rfl).2.1,
   (lookup_strips_save_does_not storeEx " sess1" sessEx 0 audioOk "" "" none
      (.ok erEx) dedupFirst rfl).2.2 (by decide)⟩

end InterviewAI
